import Mathlib

/-!
# Verification of the Greenspot Grocer ETL pipeline

Shallow embedding of `src/python/greenspot_etl.py` (class `GreenspotETL`).
Raw CSV cells are modelled as `Option String` (`none` = a pandas NaN cell).
Python's `int(...)` / `float(...)` builtins are modelled as optional parsers
(`none` = the call raises `ValueError`); an exception inside `process_row`
propagates out of `parse_csv_data` and aborts the whole run before any load
phase happens, so the run is modelled in the `Except String` monad.
The database sink is modelled from the repository's schema
(`src/python/sqlite_alternative.py`): dimension tables are loaded with
`INSERT IGNORE` (skip when a primary/unique key conflicts), and the two fact
tables have an auto-increment primary key, so plain `INSERT` always appends.
-/

/-- Python `str.strip()` (ASCII whitespace, both ends). -/
def pyStrip (s : String) : String :=
  String.mk (((s.toList.dropWhile Char.isWhitespace).reverse.dropWhile Char.isWhitespace).reverse)

/-- Python `str.lower()` (ASCII range, which covers the data set). -/
def pyLower (s : String) : String :=
  String.mk (s.toList.map Char.toLower)

/-- Python `str.upper()` (ASCII range, which covers the data set). -/
def pyUpper (s : String) : String :=
  String.mk (s.toList.map Char.toUpper)

/-- If `sep` is a prefix of `l`, return the remainder after it. -/
def dropMatch : List Char → List Char → Option (List Char)
  | [], l => some l
  | _ :: _, [] => none
  | c :: cs, x :: xs => if c == x then dropMatch cs xs else none

/-- Worker for `pySplit`: left-to-right scan, splitting at each
non-overlapping occurrence of `sep` (fuel bounds the scan length). -/
def pySplitAux (sep : List Char) : Nat → List Char → List Char → List String
  | 0, _, cur => [String.mk cur.reverse]
  | _ + 1, [], cur => [String.mk cur.reverse]
  | fuel + 1, x :: xs, cur =>
    match dropMatch sep (x :: xs) with
    | some rest => String.mk cur.reverse :: pySplitAux sep fuel rest []
    | none => pySplitAux sep fuel xs (x :: cur)

/-- Python `str.split(sep)` for a nonempty separator. -/
def pySplit (sep s : String) : List String :=
  pySplitAux sep.toList (s.toList.length + 1) s.toList []

/-- Digits-only string to `Nat` (`none` when empty or a non-digit occurs). -/
def digitsToNat : List Char → Option Nat
  | [] => none
  | l =>
    if l.all Char.isDigit then
      some (l.foldl (fun a c => a * 10 + (c.toNat - 48)) 0)
    else none

/-- Python `int(str)`: strips whitespace, optional sign, one or more digits;
`none` models the `ValueError` raised on anything else (e.g. `"12.5"`). -/
def pyInt (s : String) : Option Int :=
  match (pyStrip s).toList with
  | '+' :: rest => (digitsToNat rest).map Int.ofNat
  | '-' :: rest => (digitsToNat rest).map (fun n => -(n : Int))
  | l => (digitsToNat l).map Int.ofNat

/-- Python `float(str)` on the decimal forms occurring in this data set:
strips whitespace, optional sign, digits with at most one decimal point
(exponent/inf/nan forms do not occur and are not modelled). `none` models
the `ValueError` raised on anything else. Exact value as a rational. -/
def pyFloat (s : String) : Option Rat :=
  let afterSign : List Char → (Bool × List Char) := fun l =>
    match l with
    | '+' :: rest => (false, rest)
    | '-' :: rest => (true, rest)
    | l => (false, l)
  let p := afterSign (pyStrip s).toList
  let body := p.2
  let mk : Nat → Nat → Nat → Rat := fun ip fp fl =>
    (ip : Rat) + (fp : Rat) / ((10 : Rat) ^ fl)
  let signed : Rat → Rat := fun q => if p.1 then -q else q
  match body.splitOn '.' with
  | [ipart] =>
    (digitsToNat ipart).map (fun n => signed (mk n 0 0))
  | [ipart, fpart] =>
    if ipart.all Char.isDigit ∧ fpart.all Char.isDigit ∧ (ipart ≠ [] ∨ fpart ≠ []) then
      some (signed (mk ((digitsToNat ipart).getD 0) ((digitsToNat fpart).getD 0) fpart.length))
    else none
  | _ => none

/-- `GreenspotETL.normalize_unit`: NaN input returns `"each"`; otherwise the
lower-cased, stripped string is looked up in the fixed variant table and
passes through unchanged when absent. -/
def normalize_unit (unit : Option String) : String :=
  match unit with
  | none => "each"
  | some u0 =>
    let u := pyStrip (pyLower u0)
    if u == "12 ounce can" then "12 oz can"
    else if u == "12-oz can" then "12 oz can"
    else if u == "36 oz can" then "36 oz can"
    else if u == "bunch" then "bunch"
    else if u == "dozen" then "dozen"
    else u

/-- `GreenspotETL.normalize_location`: NaN input returns `"GENERAL"`;
otherwise upper-case and strip. -/
def normalize_location (location : Option String) : String :=
  match location with
  | none => "GENERAL"
  | some l => pyStrip (pyUpper l)

/-- Number of days in a month, with Gregorian leap years, as validated by
`datetime.strptime`. -/
def daysInMonth (y m : Nat) : Nat :=
  if m == 2 then (if y % 4 == 0 && (y % 100 != 0 || y % 400 == 0) then 29 else 28)
  else if m == 4 || m == 6 || m == 9 || m == 11 then 30
  else 31

/-- Zero-pad a number below 100 to two digits (`strftime` `%m`/`%d`). -/
def pad2 (n : Nat) : String :=
  if n < 10 then "0" ++ toString n else toString n

/-- Zero-pad a year to four digits (`strftime` `%Y`). -/
def pad4 (n : Nat) : String :=
  if n < 10 then "000" ++ toString n
  else if n < 100 then "00" ++ toString n
  else if n < 1000 then "0" ++ toString n
  else toString n

/-- `GreenspotETL.parse_date`: `datetime.strptime(str(x).strip(), "%m/%d/%Y")`
re-rendered as `"%Y-%m-%d"`; NaN or any parse failure yields `none`
(the code logs a warning and returns `None`, never raises). `%m` and `%d`
take one or two digits, `%Y` exactly four, and the day must exist in the
month. -/
def parse_date (date_str : Option String) : Option String :=
  match date_str with
  | none => none
  | some ds =>
    match (pySplit "/" (pyStrip ds)).map String.toList with
    | [ms, dstr, ys] =>
      if (ms.length == 1 || ms.length == 2) && ms.all Char.isDigit &&
         (dstr.length == 1 || dstr.length == 2) && dstr.all Char.isDigit &&
         ys.length == 4 && ys.all Char.isDigit then
        let m := (digitsToNat ms).getD 0
        let d := (digitsToNat dstr).getD 0
        let y := (digitsToNat ys).getD 0
        if 1 ≤ m ∧ m ≤ 12 ∧ 1 ≤ d ∧ d ≤ daysInMonth y m then
          some (pad4 y ++ "-" ++ pad2 m ++ "-" ++ pad2 d)
        else none
      else none
    | _ => none

/-- The parsed vendor fields produced by `GreenspotETL.clean_vendor_data`. -/
structure VendorFields where
  vendor_name : String
  address : String
  city : String
  state : String
  zip_code : String
deriving DecidableEq

/-- Tail of the regex `([^,]+),?\s+([A-Z]{2})\s+(\d{5})` after group 1:
an optional comma, whitespace, two ASCII capitals, whitespace, five digits,
then anything (`re.match` does not anchor the end). Returns (state, zip).
The whitespace runs are taken maximally; since the tokens that follow each
run are disjoint from whitespace, backtracking cannot produce any other
match. -/
def tailMatchCSZ (l0 : List Char) : Option (String × String) :=
  let l1 := match l0 with
    | ',' :: rest => rest
    | l => l
  if (l1.takeWhile Char.isWhitespace).isEmpty then none
  else
    match l1.dropWhile Char.isWhitespace with
    | a :: b :: rest =>
      if a.isUpper && b.isUpper then
        if (rest.takeWhile Char.isWhitespace).isEmpty then none
        else
          match rest.dropWhile Char.isWhitespace with
          | d1 :: d2 :: d3 :: d4 :: d5 :: _ =>
            if d1.isDigit && d2.isDigit && d3.isDigit && d4.isDigit && d5.isDigit then
              some (String.mk [a, b], String.mk [d1, d2, d3, d4, d5])
            else none
          | _ => none
      else none
    | _ => none

/-- Group-1 search for `re.match(r'([^,]+),?\s+([A-Z]{2})\s+(\d{5})', s)`:
greedy `[^,]+` tries the longest comma-free prefix first and backtracks one
character at a time. -/
def tryLens (l : List Char) : Nat → Option (String × String × String)
  | 0 => none
  | i + 1 =>
    match tailMatchCSZ (l.drop (i + 1)) with
    | some (st, z) => some (String.mk (l.take (i + 1)), st, z)
    | none => tryLens l i

/-- `re.match(r'([^,]+),?\s+([A-Z]{2})\s+(\d{5})', s)`, returning the three
captured groups on success. -/
def matchCityStateZip (s : String) : Option (String × String × String) :=
  tryLens s.toList (s.toList.takeWhile (fun c => ¬ (c == ','))).length

/-- `GreenspotETL.clean_vendor_data`: NaN or blank input yields `None`;
otherwise split on `", "`, segment 0 is the name, segment 1 the address,
and segment 2 (when present) is run through the city/state/zip regex. -/
def clean_vendor_data (vendor_string : Option String) : Option VendorFields :=
  match vendor_string with
  | none => none
  | some v =>
    if pyStrip v == "" then none
    else
      let parts := pySplit ", " v
      let base : VendorFields := {
        vendor_name := if parts.length > 0 then pyStrip (parts.getD 0 "") else "Unknown Vendor"
        address := if parts.length > 1 then pyStrip (parts.getD 1 "") else ""
        city := ""
        state := ""
        zip_code := "" }
      if parts.length > 2 then
        match matchCityStateZip (pyStrip (parts.getD 2 "")) with
        | some (c, st, z) =>
          some { base with city := pyStrip c, state := pyStrip st, zip_code := pyStrip z }
        | none => some base
      else some base

/-- One raw CSV row as read by `parse_csv_data`; each cell is `none` when the
pandas value is NaN. Field order follows the column order used by
`process_row`. -/
structure Row where
  item_num : Option String
  item_type : Option String
  description : Option String
  unit : Option String
  location : Option String
  vendor : Option String
  cost : Option String
  quantity : Option String
  purchase_date : Option String
  qty_on_hand : Option String
  price : Option String
  cust : Option String
  date_sold : Option String
deriving DecidableEq

/-- An entry of `self.vendors` (value part): the assigned surrogate id plus
the parsed fields spread into the dict. -/
structure VendorRec where
  vendor_id : Nat
  fields : VendorFields
deriving DecidableEq

/-- An entry of `self.products` (value part). -/
structure ProductRec where
  product_id : Int
  product_name : String
  category : String
  unit_of_measure : String
  location_code : String
deriving DecidableEq

/-- An element of `self.purchases`. -/
structure PurchaseFact where
  product_id : Int
  vendor_id : Nat
  quantity_ordered : Int
  unit_cost : Rat
  purchase_date : Option String
deriving DecidableEq

/-- An element of `self.sales`. -/
structure SaleFact where
  product_id : Int
  customer_id : Option Int
  quantity_sold : Int
  unit_price : Rat
  sale_date : Option String
deriving DecidableEq

/-- The in-memory containers of `GreenspotETL`. Python dicts preserve
insertion order, so they are modelled as association lists appended at the
end; `self.customers` is a set of ints, modelled as a duplicate-free list. -/
structure ETLState where
  vendors : List (String × VendorRec)
  products : List (Int × ProductRec)
  customers : List Int
  categories : List (String × Nat)
  purchases : List PurchaseFact
  sales : List SaleFact
  inventory : List (Int × Int)
deriving DecidableEq

/-- The containers as initialized in `GreenspotETL.__init__`. -/
def initState : ETLState :=
  { vendors := [], products := [], customers := [], categories := [],
    purchases := [], sales := [], inventory := [] }

/-- `int(x) if pd.notna(x) else 0`: missing gives `0`, a present but
unparseable value gives `none` (the `ValueError`). -/
def pyIntOrZero (v : Option String) : Option Int :=
  match v with
  | none => some 0
  | some q => pyInt q

/-- First block of `process_row`: if the item number is new, build the
product record (defaulting name/category when NaN) and register its
category with the next sequential id. -/
def productStep (item : Int) (row : Row) (s : ETLState) : ETLState :=
  if (s.products.lookup item).isSome then s
  else
    let category_name := match row.item_type with
      | some t => pyStrip t
      | none => "General"
    let prod : ProductRec := {
      product_id := item
      product_name := match row.description with
        | some d => pyStrip d
        | none => "Product " ++ toString item
      category := category_name
      unit_of_measure := normalize_unit row.unit
      location_code := normalize_location row.location }
    let cats := if (s.categories.lookup category_name).isSome then s.categories
      else s.categories ++ [(category_name, s.categories.length + 1)]
    { s with products := s.products ++ [(item, prod)], categories := cats }

/-- The purchase-fact dict literal built inside the purchase block. -/
def purchaseFactOf (item : Int) (row : Row) (vid : Nat) (qty : Int) (cost : Rat) :
    PurchaseFact :=
  { product_id := item, vendor_id := vid, quantity_ordered := qty, unit_cost := cost,
    purchase_date := parse_date row.purchase_date }

/-- Tail of the purchase block after vendor resolution: parse quantity and
cost for the purchase fact (`.error` = `ValueError` aborting the run),
append the fact, and record the on-hand snapshot when the item has no
inventory entry yet. `vendors2`/`vid` are the vendor map and id after the
`if vendor_key not in self.vendors` insert. -/
def recordPurchase (item : Int) (row : Row) (cs : String) (s : ETLState)
    (vendors2 : List (String × VendorRec)) (vid : Nat) : Except String ETLState :=
  match pyIntOrZero row.quantity with
  | none => .error "invalid literal for int with base 10"
  | some qty =>
    match pyFloat cs with
    | none => .error "could not convert string to float"
    | some cost =>
      if (s.inventory.lookup item).isSome then
        .ok { s with vendors := vendors2, purchases := s.purchases ++ [purchaseFactOf item row vid qty cost] }
      else
        match pyIntOrZero row.qty_on_hand with
        | none => .error "invalid literal for int with base 10"
        | some onHand =>
          .ok { s with vendors := vendors2, purchases := s.purchases ++ [purchaseFactOf item row vid qty cost], inventory := s.inventory ++ [(item, onHand)] }

/-- Second block of `process_row`: when both vendor and cost cells are
present and the vendor string parses, resolve the vendor id (creating
`len(vendors)+1` when the parsed name is new) and record the purchase. -/
def purchaseStep (item : Int) (row : Row) (s : ETLState) : Except String ETLState :=
  match row.vendor, row.cost with
  | some v, some cs =>
    match clean_vendor_data (some v) with
    | none => .ok s
    | some vd =>
      match s.vendors.lookup vd.vendor_name with
      | some vr => recordPurchase item row cs s s.vendors vr.vendor_id
      | none => recordPurchase item row cs s
          (s.vendors ++ [(vd.vendor_name,
            { vendor_id := s.vendors.length + 1, fields := vd })])
          (s.vendors.length + 1)
  | _, _ => .ok s

/-- Customer-id handling inside the sales block: a present, non-blank
customer cell is parsed with `int` (`none` = `ValueError`) and registered in
the customer set. -/
def custResolve (c : Option String) (customers : List Int) :
    Option (Option Int × List Int) :=
  match c with
  | none => some (none, customers)
  | some cs =>
    if pyStrip cs == "" then some (none, customers)
    else
      match pyInt cs with
      | none => none
      | some cid =>
        some (some cid, if customers.contains cid then customers else customers ++ [cid])

/-- The sale-fact dict literal built inside the sales block. -/
def saleFactOf (item : Int) (row : Row) (cid : Option Int) (qty : Int) (price : Rat) :
    SaleFact :=
  { product_id := item, customer_id := cid, quantity_sold := qty, unit_price := price,
    sale_date := parse_date row.date_sold }

/-- Third block of `process_row`: when both price and sale date are present,
resolve the optional customer and append a sale fact. -/
def saleStep (item : Int) (row : Row) (s : ETLState) : Except String ETLState :=
  match row.price, row.date_sold with
  | some prs, some _ =>
    match custResolve row.cust s.customers with
    | none => .error "invalid literal for int with base 10"
    | some (cid, custs) =>
      match pyIntOrZero row.quantity with
      | none => .error "invalid literal for int with base 10"
      | some qty =>
        match pyFloat prs with
        | none => .error "could not convert string to float"
        | some price =>
          .ok { s with customers := custs, sales := s.sales ++ [saleFactOf item row cid qty price] }
  | _, _ => .ok s

/-- `GreenspotETL.process_row`: `int(row['Item num'])` first (a `ValueError`
aborts the run), then the three independent blocks in source order. On an
exception the run aborts before any load phase, so the partially mutated
in-memory state is never observable; the embedding therefore discards it. -/
def process_row (row : Row) (s : ETLState) : Except String ETLState :=
  match row.item_num with
  | none => .error "cannot convert float NaN to integer"
  | some istr =>
    match pyInt istr with
    | none => .error "invalid literal for int with base 10"
    | some item =>
      match purchaseStep item row (productStep item row s) with
      | .error e => .error e
      | .ok s2 => saleStep item row s2

/-- The row loop of `parse_csv_data`: rows whose `Item num` cell is NaN are
skipped with `continue`; any exception from `process_row` propagates and
aborts the loop. -/
def processRows : List Row → ETLState → Except String ETLState
  | [], s => .ok s
  | row :: rest, s =>
    match row.item_num with
    | none => processRows rest s
    | some _ =>
      match process_row row s with
      | .error e => .error e
      | .ok s2 => processRows rest s2

/-- A row of `product_categories` (PK `category_id`, UNIQUE `category_name`). -/
structure CategoryRow where
  category_id : Nat
  category_name : String
  description : String
deriving DecidableEq

/-- A row of `vendors` (PK `vendor_id`). -/
structure VendorRow where
  vendor_id : Nat
  vendor_name : String
  address : String
  city : String
  state : String
  zip_code : String
deriving DecidableEq

/-- A row of `products` (PK `product_id`). -/
structure ProductRow where
  product_id : Int
  product_name : String
  category_id : Nat
  unit_of_measure : String
  location_code : String
  primary_vendor_id : Option Nat
deriving DecidableEq

/-- A row of `customers` (PK `customer_id`). -/
structure CustomerRow where
  customer_id : Int
  first_name : String
  last_name : String
deriving DecidableEq

/-- A row of `inventory` (auto PK dropped; `product_id` is UNIQUE). -/
structure InventoryRow where
  product_id : Int
  quantity_on_hand : Int
deriving DecidableEq

/-- A row of `purchase_orders` (auto-increment PK dropped; the loader fills
`status`). -/
structure PurchaseOrderRow where
  product_id : Int
  vendor_id : Nat
  quantity_ordered : Int
  unit_cost : Rat
  purchase_date : Option String
  status : String
deriving DecidableEq

/-- A row of `sales_transactions` (auto-increment PK dropped). -/
structure SaleRow where
  product_id : Int
  customer_id : Option Int
  quantity_sold : Int
  unit_price : Rat
  sale_date : Option String
deriving DecidableEq

/-- The seven normalized tables of the sink. -/
structure DB where
  product_categories : List CategoryRow
  vendors : List VendorRow
  products : List ProductRow
  customers : List CustomerRow
  inventory : List InventoryRow
  purchase_orders : List PurchaseOrderRow
  sales_transactions : List SaleRow
deriving DecidableEq

/-- An empty sink. -/
def emptyDB : DB :=
  { product_categories := [], vendors := [], products := [], customers := [],
    inventory := [], purchase_orders := [], sales_transactions := [] }

/-- `INSERT IGNORE`: the row is appended unless some existing row conflicts
on a primary/unique key (the `conflict` predicate of the table). -/
def insIg {ρ : Type} (conflict : ρ → ρ → Bool) (t : List ρ) (r : ρ) : List ρ :=
  if t.any (fun x => conflict x r) then t else t ++ [r]

/-- One load phase over a dimension table: `INSERT IGNORE` each item of the
in-memory container, in container order. -/
def loadDim {α ρ : Type} (conflict : ρ → ρ → Bool) (mk : α → ρ)
    (items : List α) (t : List ρ) : List ρ :=
  items.foldl (fun acc a => insIg conflict acc (mk a)) t

/-- Key conflict for `product_categories`: PK `category_id` or UNIQUE
`category_name`. -/
def catConflict (x r : CategoryRow) : Bool :=
  x.category_id == r.category_id || x.category_name == r.category_name

/-- `GreenspotETL.load_categories`: insert each `(name, id)` of
`self.categories` with a synthesized description. -/
def load_categories (cats : List (String × Nat)) (t : List CategoryRow) : List CategoryRow :=
  loadDim catConflict
    (fun c => { category_id := c.2, category_name := c.1, description := c.1 ++ " products" })
    cats t

/-- Key conflict for `vendors`: PK `vendor_id`. -/
def vendConflict (x r : VendorRow) : Bool :=
  x.vendor_id == r.vendor_id

/-- `GreenspotETL.load_vendors`. -/
def load_vendors (vs : List (String × VendorRec)) (t : List VendorRow) : List VendorRow :=
  loadDim vendConflict
    (fun kv => { vendor_id := kv.2.vendor_id, vendor_name := kv.2.fields.vendor_name,
                 address := kv.2.fields.address, city := kv.2.fields.city,
                 state := kv.2.fields.state, zip_code := kv.2.fields.zip_code })
    vs t

/-- The primary-vendor resolution in `load_products`: scan the accumulated
purchase list and take the vendor of the first fact whose product id
matches (`None` when no purchase mentions the product). -/
def primary_vendor_of (purchases : List PurchaseFact) (pid : Int) : Option Nat :=
  (purchases.find? (fun pu => pu.product_id == pid)).map (fun pu => pu.vendor_id)

/-- Key conflict for `products`: PK `product_id`. -/
def prodConflict (x r : ProductRow) : Bool :=
  x.product_id == r.product_id

/-- `GreenspotETL.load_products`. The Python line
`self.categories[product['category']]` would raise `KeyError` were the
category absent; that is unreachable for states built by `process_row`, and
the lookup is defaulted to `0` here. -/
def load_products (s : ETLState) (t : List ProductRow) : List ProductRow :=
  loadDim prodConflict
    (fun kp => { product_id := kp.2.product_id, product_name := kp.2.product_name,
                 category_id := (s.categories.lookup kp.2.category).getD 0,
                 unit_of_measure := kp.2.unit_of_measure,
                 location_code := kp.2.location_code,
                 primary_vendor_id := primary_vendor_of s.purchases kp.2.product_id })
    s.products t

/-- Key conflict for `customers`: PK `customer_id`. -/
def custConflict (x r : CustomerRow) : Bool :=
  x.customer_id == r.customer_id

/-- `GreenspotETL.load_customers`: placeholder names `Customer <id>`. -/
def load_customers (cs : List Int) (t : List CustomerRow) : List CustomerRow :=
  loadDim custConflict
    (fun c => { customer_id := c, first_name := "Customer", last_name := toString c })
    cs t

/-- Key conflict for `inventory`: UNIQUE `product_id`. -/
def invConflict (x r : InventoryRow) : Bool :=
  x.product_id == r.product_id

/-- `GreenspotETL.load_inventory`. -/
def load_inventory (inv : List (Int × Int)) (t : List InventoryRow) : List InventoryRow :=
  loadDim invConflict
    (fun pq => { product_id := pq.1, quantity_on_hand := pq.2 })
    inv t

/-- `GreenspotETL.load_purchases`: plain `INSERT` under an auto-increment
primary key never conflicts, so each fact appends one row, with the
constant status `'received'`. -/
def load_purchases (ps : List PurchaseFact) (t : List PurchaseOrderRow) : List PurchaseOrderRow :=
  t ++ ps.map (fun p =>
    { product_id := p.product_id, vendor_id := p.vendor_id,
      quantity_ordered := p.quantity_ordered, unit_cost := p.unit_cost,
      purchase_date := p.purchase_date, status := "received" })

/-- `GreenspotETL.load_sales`: plain `INSERT`, one row per fact. -/
def load_sales (ss : List SaleFact) (t : List SaleRow) : List SaleRow :=
  t ++ ss.map (fun sa =>
    { product_id := sa.product_id, customer_id := sa.customer_id,
      quantity_sold := sa.quantity_sold, unit_price := sa.unit_price,
      sale_date := sa.sale_date })

/-- The load sequence of `run_etl` (categories, vendors, products,
customers, inventory, purchases, sales). -/
def run_load (s : ETLState) (db : DB) : DB :=
  { product_categories := load_categories s.categories db.product_categories,
    vendors := load_vendors s.vendors db.vendors,
    products := load_products s db.products,
    customers := load_customers s.customers db.customers,
    inventory := load_inventory s.inventory db.inventory,
    purchase_orders := load_purchases s.purchases db.purchase_orders,
    sales_transactions := load_sales s.sales db.sales_transactions }

/-- A fully-blank row (all cells NaN). -/
def blankRow : Row :=
  { item_num := none, item_type := none, description := none, unit := none,
    location := none, vendor := none, cost := none, quantity := none,
    purchase_date := none, qty_on_hand := none, price := none, cust := none,
    date_sold := none }

/-- Snapshot row: item 7 bought from `V Farms` with 40 on hand. -/
def snapRow40 : Row :=
  { blankRow with item_num := some "7", vendor := some "V Farms", cost := some "2",
                  qty_on_hand := some "40" }

/-- Snapshot row: item 7 bought from `V Farms` with 25 on hand. -/
def snapRow25 : Row :=
  { blankRow with item_num := some "7", vendor := some "V Farms", cost := some "2",
                  qty_on_hand := some "25" }

/-- A row whose item number cell is present but not integer-parseable. -/
def badItemRow : Row := { blankRow with item_num := some "abc" }

/-- A well-formed product-only row (item 9, category `Dairy`, name `Eggs`). -/
def eggsRow : Row :=
  { blankRow with item_num := some "9", item_type := some "Dairy",
                  description := some "Eggs" }

/-- A row with a present but unparseable cost cell next to a valid vendor. -/
def badCostRow : Row :=
  { blankRow with item_num := some "1", vendor := some "V", cost := some "abc" }

/-- A sample purchase fact for the `c10` witness. -/
def c10fact : PurchaseFact :=
  { product_id := 7, vendor_id := 1, quantity_ordered := 5, unit_cost := 2,
    purchase_date := none }

/-- The row `load_purchases` writes for `c10fact`. -/
def c10row : PurchaseOrderRow :=
  { product_id := 7, vendor_id := 1, quantity_ordered := 5, unit_cost := 2,
    purchase_date := none, status := "received" }

/-- Purchase row for item 5 from vendor `Alpha Farms` (earlier row). -/
def c3row1 : Row :=
  { blankRow with item_num := some "5", description := some "Beans",
                  vendor := some "Alpha Farms, 1 Main St.", cost := some "2" }

/-- Purchase row for item 5 from vendor `Beta Inc` (later row). -/
def c3row2 : Row :=
  { blankRow with item_num := some "5", description := some "Beans",
                  vendor := some "Beta Inc", cost := some "3" }

/-- A synthetic row that is simultaneously a first-time product definition,
a valid purchase (vendor + cost), and a valid sale (price + sale date). -/
def c5row : Row :=
  { item_num := some "11", item_type := some "Dairy", description := some "Milk",
    unit := some "dozen", location := some "d12", vendor := some "Dairy Farm, 1 Rd",
    cost := some "3", quantity := some "10", purchase_date := some "11/18/2025",
    qty_on_hand := some "20", price := some "5", cust := some "198",
    date_sold := some "11/20/2025" }

/-- A row whose purchase and sale dates are present but unparseable
(`"13/40/2025"`), with the quantity cell missing. -/
def c6dateRow : Row :=
  { blankRow with item_num := some "3", vendor := some "V", cost := some "2",
                  purchase_date := some "13/40/2025", qty_on_hand := some "5",
                  price := some "4", date_sold := some "13/40/2025" }

/-- The product record `process_row` builds for `eggsRow`. -/
def eggsProd : ProductRec :=
  { product_id := 9, product_name := "Eggs", category := "Dairy",
    unit_of_measure := "each", location_code := "GENERAL" }

/-- The state after processing `eggsRow` from an empty start. -/
def c9state : ETLState :=
  { vendors := [], products := [(9, eggsProd)], customers := [],
    categories := [("Dairy", 1)], purchases := [], sales := [], inventory := [] }

/-- A state that already holds an inventory snapshot of 40 for item 7. -/
def c1wstate : ETLState := { initState with inventory := [(7, 40)] }

/-- `c1wstate` after processing `eggsRow`: the snapshot is untouched. -/
def c1wstate2 : ETLState :=
  { vendors := [], products := [(9, eggsProd)], customers := [],
    categories := [("Dairy", 1)], purchases := [], sales := [],
    inventory := [(7, 40)] }

/-- A product record for the `c3` witness state. -/
def beansProd : ProductRec :=
  { product_id := 5, product_name := "Beans", category := "General",
    unit_of_measure := "each", location_code := "GENERAL" }

/-- A state holding one product and no purchases. -/
def c3wstate : ETLState := { initState with products := [(5, beansProd)] }

/-- The row `load_products` writes for `beansProd` under `c3wstate` (no
category registered, no purchase, hence default `0` and `none`). -/
def c3wrow : ProductRow :=
  { product_id := 5, product_name := "Beans", category_id := 0,
    unit_of_measure := "each", location_code := "GENERAL",
    primary_vendor_id := none }

/-- The vendor fields parsed from `c5row`'s vendor string. -/
def c5vd : VendorFields :=
  { vendor_name := "Dairy Farm", address := "1 Rd", city := "", state := "",
    zip_code := "" }

/-- The referential invariant of the in-memory state: vendor ids are the
compact range `1..len(vendors)`, every purchase fact points at an existing
product key and an assigned vendor id, and every sale fact points at an
existing product key and a registered (or null) customer. -/
def StateWF (s : ETLState) : Prop :=
  (∀ kv ∈ s.vendors, 1 ≤ (kv.2).vendor_id ∧ (kv.2).vendor_id ≤ s.vendors.length) ∧
  (∀ pf ∈ s.purchases, ((s.products.lookup pf.product_id).isSome = true) ∧
    1 ≤ pf.vendor_id ∧ pf.vendor_id ≤ s.vendors.length) ∧
  (∀ sf ∈ s.sales, ((s.products.lookup sf.product_id).isSome = true) ∧
    ∀ i, sf.customer_id = some i → i ∈ s.customers)

example : pyInt "  42 " = some 42 := by decide
example : pyInt "abc" = none := by decide
example : pyInt "12.5" = none := by decide
example : (pyFloat "1.99").isSome = true := by decide
example : pyFloat "abc" = none := by decide
example : pyFloat "12.5.3" = none := by decide
example : parse_date (some "11/18/2025") = some "2025-11-18" := by decide
example : parse_date (some "13/40/2025") = none := by decide
example : parse_date (some "2/29/2025") = none := by decide
example : parse_date (some "2/29/2024") = some "2024-02-29" := by decide
example : normalize_unit (some "12 OUNCE CAN ") = "12 oz can" := by decide
example : normalize_unit (some "") = "" := by decide
example : normalize_unit none = "each" := by decide
example : matchCityStateZip "Evansville, IL 55446" = some ("Evansville", "IL", "55446") := by decide
example : matchCityStateZip "Evansville" = none := by decide
example :
    clean_vendor_data (some "Bennet Farms, Rt. 17, Evansville, IL 55446") =
      some ({ vendor_name := "Bennet Farms", address := "Rt. 17",
              city := "", state := "", zip_code := "" } : VendorFields) := by decide
example :
    clean_vendor_data (some "Acme") =
      some ({ vendor_name := "Acme", address := "", city := "", state := "",
              zip_code := "" } : VendorFields) := by decide
example :
    (processRows [snapRow40, snapRow25] initState).map (fun s => s.inventory.lookup 7) =
      .ok (some 40) := by rfl
example :
    (processRows [badItemRow, eggsRow] initState).map (fun s => s.products.length) =
      .error "invalid literal for int with base 10" := by rfl
example :
    (processRows [badCostRow] initState).map (fun s => s.products.length) =
      .error "could not convert string to float" := by rfl
example :
    (processRows [snapRow40, snapRow25] initState).map
      (fun s => (run_load s emptyDB).inventory) =
      .ok [{ product_id := 7, quantity_on_hand := 40 }] := by rfl

/-- A hit in an association list survives appending on the right
(the first binding wins, as in a Python dict keyed by first insertion). -/
theorem lookup_append_some {α β : Type} [BEq α] [LawfulBEq α] {l l2 : List (α × β)}
    {k : α} {v : β} (h : l.lookup k = some v) : (l ++ l2).lookup k = some v := by
  rw [List.lookup_append, h]; rfl

/-- `isSome` version of `lookup_append_some`. -/
theorem lookup_append_isSome {α β : Type} [BEq α] [LawfulBEq α] {l l2 : List (α × β)}
    {k : α} (h : (l.lookup k).isSome = true) : ((l ++ l2).lookup k).isSome = true := by
  obtain ⟨v, hv⟩ := Option.isSome_iff_exists.mp h
  exact Option.isSome_iff_exists.mpr ⟨v, lookup_append_some hv⟩

/-- Appending a fresh binding makes it visible. -/
theorem lookup_append_new {α β : Type} [BEq α] [LawfulBEq α] {l : List (α × β)} {k : α}
    {v : β} (h : l.lookup k = none) : (l ++ [(k, v)]).lookup k = some v := by
  rw [List.lookup_append, h, Option.none_or, List.lookup_cons_self]

/-- A successful lookup names an actual entry of the list. -/
theorem lookup_some_mem {α β : Type} [BEq α] [LawfulBEq α] {l : List (α × β)} {k : α}
    {v : β} (h : l.lookup k = some v) : (k, v) ∈ l := by
  obtain ⟨l1, l2, rfl, -⟩ := List.lookup_eq_some_iff.mp h
  exact List.mem_append_right _ (List.mem_cons_self _ _)

/-- `insIg` never removes rows. -/
theorem insIg_subset {ρ : Type} {c : ρ → ρ → Bool} {t : List ρ} {r x : ρ}
    (h : x ∈ t) : x ∈ insIg c t r := by
  unfold insIg
  split
  · exact h
  · exact List.mem_append_left _ h

/-- A load phase never removes rows. -/
theorem loadDim_subset {α ρ : Type} {c : ρ → ρ → Bool} {mk : α → ρ}
    {items : List α} {t : List ρ} {x : ρ} (h : x ∈ t) : x ∈ loadDim c mk items t := by
  induction items generalizing t with
  | nil => exact h
  | cons a rest ih => exact ih (insIg_subset h)

/-- Unfolding one step of a load phase. -/
theorem loadDim_cons {α ρ : Type} (c : ρ → ρ → Bool) (mk : α → ρ)
    (a : α) (items : List α) (t : List ρ) :
    loadDim c mk (a :: items) t = loadDim c mk items (insIg c t (mk a)) := rfl

/-- After a load phase, every loaded item has a conflicting row in the
table (itself when it was inserted, or the pre-existing key holder). -/
theorem loadDim_conflict {α ρ : Type} {c : ρ → ρ → Bool} {mk : α → ρ}
    (hc : ∀ a : α, c (mk a) (mk a) = true) :
    ∀ (items : List α) (t : List ρ), ∀ a ∈ items,
      ∃ r ∈ loadDim c mk items t, c r (mk a) = true := by
  intro items
  induction items with
  | nil => intro t a ha; cases ha
  | cons b rest ih =>
    intro t a ha
    rw [loadDim_cons]
    rcases List.mem_cons.mp ha with rfl | ha2
    · by_cases hb : t.any (fun x => c x (mk a)) = true
      · obtain ⟨r, hr, hcr⟩ := List.any_eq_true.mp hb
        exact ⟨r, loadDim_subset (insIg_subset hr), hcr⟩
      · have hmem : mk a ∈ insIg c t (mk a) := by
          unfold insIg
          rw [if_neg hb]
          exact List.mem_append_right _ (List.mem_cons_self _ _)
        exact ⟨mk a, loadDim_subset hmem, hc a⟩
    · exact ih _ a ha2

/-- Loading items that all already conflict with the table is a no-op. -/
theorem loadDim_eq_of_conflict {α ρ : Type} {c : ρ → ρ → Bool} {mk : α → ρ} :
    ∀ (items : List α) (t : List ρ),
      (∀ a ∈ items, ∃ r ∈ t, c r (mk a) = true) → loadDim c mk items t = t := by
  intro items
  induction items with
  | nil => intro t _; rfl
  | cons b rest ih =>
    intro t h
    have hb : insIg c t (mk b) = t := by
      unfold insIg
      rw [if_pos]
      obtain ⟨r, hr, hcr⟩ := h b (List.mem_cons_self _ _)
      exact List.any_eq_true.mpr ⟨r, hr, hcr⟩
    rw [loadDim_cons, hb]
    exact ih t (fun a ha => h a (List.mem_cons_of_mem _ ha))

/-- Re-running an `INSERT IGNORE` load phase with the same items changes
nothing. -/
theorem loadDim_idem {α ρ : Type} {c : ρ → ρ → Bool} {mk : α → ρ}
    (hc : ∀ a : α, c (mk a) (mk a) = true) (items : List α) (t : List ρ) :
    loadDim c mk items (loadDim c mk items t) = loadDim c mk items t :=
  loadDim_eq_of_conflict items _ (loadDim_conflict hc items t)

/-- Any row of a loaded dimension table was already present or is the image
of a loaded item. -/
theorem loadDim_mem {α ρ : Type} {c : ρ → ρ → Bool} {mk : α → ρ} :
    ∀ (items : List α) (t : List ρ) (x : ρ), x ∈ loadDim c mk items t →
      x ∈ t ∨ ∃ a ∈ items, x = mk a := by
  intro items
  induction items with
  | nil => intro t x hx; exact Or.inl hx
  | cons b rest ih =>
    intro t x hx
    rw [loadDim_cons] at hx
    rcases ih _ x hx with hins | ⟨a, ha, rfl⟩
    · unfold insIg at hins
      split at hins
      · exact Or.inl hins
      · rcases List.mem_append.mp hins with hxt | hxb
        · exact Or.inl hxt
        · rcases List.mem_cons.mp hxb with rfl | hnil
          · exact Or.inr ⟨b, List.mem_cons_self _ _, rfl⟩
          · cases hnil
    · exact Or.inr ⟨a, List.mem_cons_of_mem _ ha, rfl⟩

/-- `productStep` touches only `products` and `categories`. -/
theorem productStep_rest (item : Int) (row : Row) (s : ETLState) :
    (productStep item row s).purchases = s.purchases ∧
    (productStep item row s).sales = s.sales ∧
    (productStep item row s).vendors = s.vendors ∧
    (productStep item row s).customers = s.customers ∧
    (productStep item row s).inventory = s.inventory := by
  unfold productStep
  split
  · exact ⟨rfl, rfl, rfl, rfl, rfl⟩
  · exact ⟨rfl, rfl, rfl, rfl, rfl⟩

/-- After `productStep`, the processed item number is a key of the product
map. -/
theorem productStep_lookup_self (item : Int) (row : Row) (s : ETLState) :
    (((productStep item row s).products.lookup item).isSome) = true := by
  unfold productStep
  split
  · assumption
  · rename_i hnot
    have hn : s.products.lookup item = none := by
      cases hh : s.products.lookup item
      · rfl
      · exact absurd (by simp [hh]) hnot
    simp [lookup_append_new hn]

/-- `productStep` never drops keys of the product map. -/
theorem productStep_lookup_mono {k : Int} (item : Int) (row : Row) (s : ETLState)
    (h : ((s.products.lookup k).isSome) = true) :
    (((productStep item row s).products.lookup k).isSome) = true := by
  unfold productStep
  split
  · exact h
  · exact lookup_append_isSome h

/-- **C2**: what `clean_vendor_data` actually returns on the two inputs named
by the claim. On `"Bennet Farms, Rt. 17, Evansville, IL 55446"` the
`split(', ')` severs `"Evansville"` from `"IL 55446"`, so the city/state/zip
regex (run on segment 2 alone, `"Evansville"`) cannot match and all three
fields stay empty — contradicting the claimed city/state/zip extraction,
the code's own format comments, and the repository's sample rows. The
`"Acme"` half of the claim holds. -/
theorem c2_clean_vendor_data_observed :
    clean_vendor_data (some "Bennet Farms, Rt. 17, Evansville, IL 55446") =
      some ({ vendor_name := "Bennet Farms", address := "Rt. 17", city := "",
              state := "", zip_code := "" } : VendorFields) ∧
    ((clean_vendor_data (some "Bennet Farms, Rt. 17, Evansville, IL 55446")).map
      VendorFields.city == some "Evansville") = false ∧
    clean_vendor_data (some "Acme") =
      some ({ vendor_name := "Acme", address := "", city := "", state := "",
              zip_code := "" } : VendorFields) := by
  refine ⟨by decide, by decide, by decide⟩

/-- **C8** (counterexample): `normalize_unit` on the present-but-empty string
returns `""`, not `"each"` — missing (NaN) input is the only case mapped to
`"each"`. -/
theorem c8_counterexample :
    normalize_unit (some "") = "" ∧ (normalize_unit (some "") == "each") = false := by
  refine ⟨by decide, by decide⟩

/-- **C8** (amended): `normalize_unit` lower-cases and trims; the fixed
variant table maps to canonical spellings; unmapped values pass through
lower-cased and trimmed; missing (NaN) input returns `"each"`, while an
empty string passes through as `""`. -/
theorem c8_normalize_unit_amended :
    (normalize_unit none = "each" ∧
     normalize_unit (some "12 OUNCE CAN ") = "12 oz can" ∧
     normalize_unit (some "12-oz can") = "12 oz can" ∧
     normalize_unit (some "") = "") ∧
    ∀ u : String,
      pyStrip (pyLower u) ∉ ["12 ounce can", "12-oz can", "36 oz can", "bunch", "dozen"] →
      normalize_unit (some u) = pyStrip (pyLower u) := by
  refine ⟨⟨by decide, by decide, by decide, by decide⟩, ?_⟩
  intro u hu
  simp only [List.mem_cons, List.not_mem_nil, or_false, not_or] at hu
  obtain ⟨h1, h2, h3, h4, h5⟩ := hu
  simp only [normalize_unit]
  rw [if_neg (by simpa using h1), if_neg (by simpa using h2),
      if_neg (by simpa using h3), if_neg (by simpa using h4),
      if_neg (by simpa using h5)]

/-- Witness for `c8_normalize_unit_amended` at the unmapped input
`" Fancy Box "`. -/
theorem c8_normalize_unit_amended_witness :
    normalize_unit (some " Fancy Box ") = pyStrip (pyLower " Fancy Box ") :=
  c8_normalize_unit_amended.2 " Fancy Box " (by decide)

/-- **C10**: every row `load_purchases` appends carries the constant status
`'received'`; any other row of the resulting table was already in it. -/
theorem c10_constant_status {ps : List PurchaseFact} {t : List PurchaseOrderRow}
    {r : PurchaseOrderRow} (hr : r ∈ load_purchases ps t) :
    r ∈ t ∨ r.status = "received" := by
  unfold load_purchases at hr
  rcases List.mem_append.mp hr with h | h
  · exact Or.inl h
  · obtain ⟨p, -, rfl⟩ := List.mem_map.mp h
    exact Or.inr rfl

/-- Witness for `c10_constant_status` on a one-fact load into an empty
table. -/
theorem c10_constant_status_witness :
    c10row ∈ ([] : List PurchaseOrderRow) ∨ c10row.status = "received" :=
  @c10_constant_status [c10fact] [] c10row
    (List.mem_append_right _ (List.mem_cons_self _ _))

/-- **C7**: loading the same parsed state twice into an initially empty sink
leaves the five `INSERT IGNORE` dimension tables with the row counts of a
single load, while the two append-only fact tables double. -/
theorem c7_second_run_counts (s : ETLState) :
    (run_load s (run_load s emptyDB)).product_categories.length =
      (run_load s emptyDB).product_categories.length ∧
    (run_load s (run_load s emptyDB)).vendors.length =
      (run_load s emptyDB).vendors.length ∧
    (run_load s (run_load s emptyDB)).products.length =
      (run_load s emptyDB).products.length ∧
    (run_load s (run_load s emptyDB)).customers.length =
      (run_load s emptyDB).customers.length ∧
    (run_load s (run_load s emptyDB)).inventory.length =
      (run_load s emptyDB).inventory.length ∧
    (run_load s (run_load s emptyDB)).purchase_orders.length =
      2 * (run_load s emptyDB).purchase_orders.length ∧
    (run_load s (run_load s emptyDB)).sales_transactions.length =
      2 * (run_load s emptyDB).sales_transactions.length := by
  refine ⟨?_, ?_, ?_, ?_, ?_, ?_, ?_⟩
  · simp only [run_load]
    rw [show load_categories s.categories
          (load_categories s.categories emptyDB.product_categories) =
        load_categories s.categories emptyDB.product_categories from
      loadDim_idem (fun a => by simp [catConflict]) _ _]
  · simp only [run_load]
    rw [show load_vendors s.vendors (load_vendors s.vendors emptyDB.vendors) =
        load_vendors s.vendors emptyDB.vendors from
      loadDim_idem (fun a => by simp [vendConflict]) _ _]
  · simp only [run_load]
    rw [show load_products s (load_products s emptyDB.products) =
        load_products s emptyDB.products from
      loadDim_idem (fun a => by simp [prodConflict]) _ _]
  · simp only [run_load]
    rw [show load_customers s.customers (load_customers s.customers emptyDB.customers) =
        load_customers s.customers emptyDB.customers from
      loadDim_idem (fun a => by simp [custConflict]) _ _]
  · simp only [run_load]
    rw [show load_inventory s.inventory (load_inventory s.inventory emptyDB.inventory) =
        load_inventory s.inventory emptyDB.inventory from
      loadDim_idem (fun a => by simp [invConflict]) _ _]
  · simp [run_load, load_purchases, emptyDB, Nat.two_mul]
  · simp [run_load, load_sales, emptyDB, Nat.two_mul]

/-- Shape of a successful `recordPurchase`: products/sales/customers/
categories untouched, vendors replaced by the resolved map, exactly one
purchase fact appended, inventory extended by at most one entry. -/
theorem recordPurchase_ok {item : Int} {row : Row} {cs : String} {s s2 : ETLState}
    {vendors2 : List (String × VendorRec)} {vid : Nat}
    (h : recordPurchase item row cs s vendors2 vid = .ok s2) :
    s2.products = s.products ∧ s2.sales = s.sales ∧ s2.customers = s.customers ∧
    s2.categories = s.categories ∧ s2.vendors = vendors2 ∧
    (∃ qty cost, s2.purchases = s.purchases ++ [purchaseFactOf item row vid qty cost]) ∧
    (∃ it, s2.inventory = s.inventory ++ it) := by
  unfold recordPurchase at h
  split at h
  · simp at h
  · split at h
    · simp at h
    · split at h
      · injection h with h1; subst h1
        exact ⟨rfl, rfl, rfl, rfl, rfl, ⟨_, _, rfl⟩, ⟨[], by simp⟩⟩
      · split at h
        · simp at h
        · injection h with h1; subst h1
          exact ⟨rfl, rfl, rfl, rfl, rfl, ⟨_, _, rfl⟩, ⟨_, rfl⟩⟩

/-- Shape of a successful `purchaseStep`: only vendors, purchases and
inventory can change, each by appending. -/
theorem purchaseStep_ok {item : Int} {row : Row} {s s2 : ETLState}
    (h : purchaseStep item row s = .ok s2) :
    s2.products = s.products ∧ s2.sales = s.sales ∧ s2.customers = s.customers ∧
    s2.categories = s.categories ∧
    (∃ vt, s2.vendors = s.vendors ++ vt) ∧
    (∃ it, s2.inventory = s.inventory ++ it) ∧
    (s2.purchases = s.purchases ∨
      ∃ pf : PurchaseFact, s2.purchases = s.purchases ++ [pf] ∧ pf.product_id = item) := by
  unfold purchaseStep at h
  split at h
  · split at h
    · injection h with h1; subst h1
      exact ⟨rfl, rfl, rfl, rfl, ⟨[], by simp⟩, ⟨[], by simp⟩, Or.inl rfl⟩
    · split at h
      · obtain ⟨hp, hs, hc, hcat, hv, ⟨qty, cost, hpur⟩, hit⟩ := recordPurchase_ok h
        exact ⟨hp, hs, hc, hcat, ⟨[], by simp [hv]⟩, hit, Or.inr ⟨_, hpur, rfl⟩⟩
      · obtain ⟨hp, hs, hc, hcat, hv, ⟨qty, cost, hpur⟩, hit⟩ := recordPurchase_ok h
        exact ⟨hp, hs, hc, hcat, ⟨_, hv⟩, hit, Or.inr ⟨_, hpur, rfl⟩⟩
  · injection h with h1; subst h1
    exact ⟨rfl, rfl, rfl, rfl, ⟨[], by simp⟩, ⟨[], by simp⟩, Or.inl rfl⟩

/-- `List.contains` implies membership (lawful `BEq`). -/
theorem contains_mem {α : Type} [BEq α] [LawfulBEq α] {l : List α} {a : α}
    (h : l.contains a = true) : a ∈ l := by
  obtain ⟨b, hb, he⟩ := List.contains_iff_exists_mem_beq.mp h
  rw [eq_of_beq he]; exact hb

/-- Shape of a successful `custResolve`: the customer set only grows, and a
returned id is registered in it. -/
theorem custResolve_ok {c : Option String} {custs : List Int} {cid : Option Int}
    {custs2 : List Int} (h : custResolve c custs = some (cid, custs2)) :
    (∃ ct, custs2 = custs ++ ct) ∧ ∀ i, cid = some i → i ∈ custs2 := by
  unfold custResolve at h
  split at h
  · rw [Option.some.injEq, Prod.mk.injEq] at h
    obtain ⟨h1, h2⟩ := h
    subst h1; subst h2
    exact ⟨⟨[], by simp⟩, fun i hi => Option.noConfusion hi⟩
  · split at h
    · rw [Option.some.injEq, Prod.mk.injEq] at h
      obtain ⟨h1, h2⟩ := h
      subst h1; subst h2
      exact ⟨⟨[], by simp⟩, fun i hi => Option.noConfusion hi⟩
    · split at h
      · simp at h
      · rename_i cid2 hpi
        rw [Option.some.injEq, Prod.mk.injEq] at h
        obtain ⟨h1, h2⟩ := h
        subst h1; subst h2
        constructor
        · split
          · exact ⟨[], by simp⟩
          · exact ⟨[cid2], rfl⟩
        · intro i hi
          rw [Option.some.injEq] at hi
          subst hi
          split
          · rename_i hcont
            exact contains_mem hcont
          · exact List.mem_append_right _ (List.mem_cons_self _ _)

/-- Shape of a successful `saleStep`: only customers and sales can change,
each by appending; an appended sale's customer id is registered. -/
theorem saleStep_ok {item : Int} {row : Row} {s s2 : ETLState}
    (h : saleStep item row s = .ok s2) :
    s2.products = s.products ∧ s2.purchases = s.purchases ∧ s2.vendors = s.vendors ∧
    s2.categories = s.categories ∧ s2.inventory = s.inventory ∧
    (∃ ct, s2.customers = s.customers ++ ct) ∧
    (s2.sales = s.sales ∨
      ∃ sf : SaleFact, s2.sales = s.sales ++ [sf] ∧ sf.product_id = item ∧
        ∀ i, sf.customer_id = some i → i ∈ s2.customers) := by
  unfold saleStep at h
  split at h
  · split at h
    · simp at h
    · rename_i cid custs hcr
      split at h
      · simp at h
      · split at h
        · simp at h
        · injection h with h1; subst h1
          obtain ⟨⟨ct, hct⟩, hmem⟩ := custResolve_ok hcr
          exact ⟨rfl, rfl, rfl, rfl, rfl, ⟨ct, hct⟩,
            Or.inr ⟨_, rfl, rfl, fun i hi => hmem i hi⟩⟩
  · injection h with h1; subst h1
    exact ⟨rfl, rfl, rfl, rfl, rfl, ⟨[], by simp⟩, Or.inl rfl⟩

/-- A hit in the inventory map survives a whole successful `process_row`
(the purchase block writes a snapshot only for an item with no entry yet —
first write wins). -/
theorem process_row_inventory_mono {row : Row} {s s2 : ETLState}
    (h : process_row row s = .ok s2) {p q : Int}
    (hp : s.inventory.lookup p = some q) : s2.inventory.lookup p = some q := by
  unfold process_row at h
  split at h
  · simp at h
  · split at h
    · simp at h
    · rename_i item hitem
      split at h
      · simp at h
      · rename_i s1 hps
        have hrest := (productStep_rest item row s).2.2.2.2
        obtain ⟨-, -, -, -, -, ⟨it, hit⟩, -⟩ := purchaseStep_ok hps
        obtain ⟨-, -, -, -, hinv2, -, -⟩ := saleStep_ok h
        rw [hinv2, hit, hrest]
        exact lookup_append_some hp

/-- A successful `process_row` only appends to the purchase list, so facts
accumulate in source order. -/
theorem process_row_purchases_append {row : Row} {s s2 : ETLState}
    (h : process_row row s = .ok s2) : ∃ t, s2.purchases = s.purchases ++ t := by
  unfold process_row at h
  split at h
  · simp at h
  · split at h
    · simp at h
    · rename_i item hitem
      split at h
      · simp at h
      · rename_i s1 hps
        have hp := (productStep_rest item row s).1
        obtain ⟨-, -, -, -, -, -, hpur⟩ := purchaseStep_ok hps
        obtain ⟨-, hpur2, -, -, -, -, -⟩ := saleStep_ok h
        rcases hpur with he | ⟨pf, he, -⟩
        · exact ⟨[], by rw [hpur2, he, hp, List.append_nil]⟩
        · exact ⟨[pf], by rw [hpur2, he, hp]⟩

/-- **C1** (counterexample): two snapshots 40 then 25 for item 7 leave the
inventory map — and the loaded `inventory` table — at 40, not 25: the code
guards the write with `if item_num not in self.inventory`, so the first
snapshot wins, not the last. -/
theorem c1_counterexample :
    (processRows [snapRow40, snapRow25] initState).map (fun s => s.inventory.lookup 7) =
      .ok (some 40) ∧
    (processRows [snapRow40, snapRow25] initState).map
      (fun s => (run_load s emptyDB).inventory.map (fun r => (r.product_id, r.quantity_on_hand))) =
      .ok [(7, 40)] ∧
    (processRows [snapRow40, snapRow25] initState).map
      (fun s => s.inventory.lookup 7 == some 25) = .ok false := by
  refine ⟨by rfl, by rfl, by rfl⟩

/-- **C1** (amended): the stored `quantity_on_hand` is the *first* on-hand
value seen in source order among the rows that emit a purchase fact for the
product — in the 40-then-25 scenario the stored value is 40 — because once
a product has an inventory entry, no later processed row changes it. -/
theorem c1_first_write_wins :
    ((processRows [snapRow40, snapRow25] initState).map (fun s => s.inventory.lookup 7) =
      .ok (some 40)) ∧
    ∀ (row : Row) (s s2 : ETLState) (p q : Int), s.inventory.lookup p = some q →
      process_row row s = .ok s2 → s2.inventory.lookup p = some q := by
  exact ⟨by rfl, fun row s s2 p q hp h => process_row_inventory_mono h hp⟩

/-- Witness for `c1_first_write_wins`: processing `eggsRow` on a state
holding snapshot `(7, 40)` keeps the snapshot. -/
theorem c1_first_write_wins_witness : c1wstate2.inventory.lookup 7 = some 40 :=
  c1_first_write_wins.2 eggsRow c1wstate c1wstate2 7 40 (by rfl) (by rfl)

/-- **C3**: end to end on two purchase rows for item 5 from `Alpha Farms`
then `Beta Inc`, the loaded product row carries `primary_vendor_id = 1`
(Alpha's id); in general a successful `process_row` only appends purchase
facts (source order is preserved), and every freshly loaded product row's
`primary_vendor_id` is the vendor of the first accumulated purchase fact
whose product id matches (`none` when no fact matches). -/
theorem c3_primary_vendor_first :
    ((processRows [c3row1, c3row2] initState).map
      (fun s => (run_load s emptyDB).products.map (fun p => (p.product_id, p.primary_vendor_id))) =
      .ok [(5, some 1)]) ∧
    ((processRows [c3row1, c3row2] initState).map
      (fun s => (run_load s emptyDB).vendors.map (fun v => (v.vendor_id, v.vendor_name))) =
      .ok [(1, "Alpha Farms"), (2, "Beta Inc")]) ∧
    (∀ (row : Row) (s s2 : ETLState), process_row row s = .ok s2 →
      ∃ t, s2.purchases = s.purchases ++ t) ∧
    (∀ (s : ETLState) (t : List ProductRow) (pr : ProductRow), pr ∈ load_products s t →
      pr ∈ t ∨ pr.primary_vendor_id = primary_vendor_of s.purchases pr.product_id) := by
  refine ⟨by rfl, by rfl, fun row s s2 h => process_row_purchases_append h, ?_⟩
  intro s t pr hpr
  rcases loadDim_mem _ _ _ hpr with hold | ⟨kp, -, rfl⟩
  · exact Or.inl hold
  · exact Or.inr rfl

/-- Witness for `c3_primary_vendor_first` at a one-product load with no
purchase facts. -/
theorem c3_primary_vendor_first_witness :
    c3wrow ∈ ([] : List ProductRow) ∨
      c3wrow.primary_vendor_id = primary_vendor_of c3wstate.purchases c3wrow.product_id :=
  c3_primary_vendor_first.2.2.2 c3wstate [] c3wrow (by decide)

/-- **C4** (counterexample): a present but non-integer item number does not
skip the row and continue — `int(row['Item num'])` raises and the whole
parse aborts, so the following well-formed row is never processed (alone it
would have produced one product). -/
theorem c4_counterexample :
    (processRows [badItemRow, eggsRow] initState).map (fun s => s.products.length) =
      .error "invalid literal for int with base 10" ∧
    (processRows [eggsRow] initState).map (fun s => s.products.length) = .ok 1 := by
  exact ⟨by rfl, by rfl⟩

/-- **C4** (amended): a row whose item number cell is missing (NaN)
contributes zero entities and facts and processing continues with the next
row; a row whose item number is present but not integer-parseable raises an
uncaught `ValueError` that aborts the parse run (contributing nothing
itself, but nothing after it is processed either). -/
theorem c4_skip_and_abort :
    (∀ (row : Row) (rest : List Row) (s : ETLState), row.item_num = none →
      processRows (row :: rest) s = processRows rest s) ∧
    (∀ (row : Row) (rest : List Row) (s : ETLState) (istr : String),
      row.item_num = some istr → pyInt istr = none →
      processRows (row :: rest) s = .error "invalid literal for int with base 10") := by
  constructor
  · intro row rest s h
    conv_lhs => rw [processRows]
    simp only [h]
  · intro row rest s istr h1 h2
    have hpr : process_row row s = .error "invalid literal for int with base 10" := by
      unfold process_row
      simp only [h1, h2]
    conv_lhs => rw [processRows]
    simp only [h1, hpr]

/-- Witness for `c4_skip_and_abort`: a blank row is skipped. -/
theorem c4_skip_and_abort_witness :
    processRows [blankRow] initState = processRows [] initState :=
  c4_skip_and_abort.1 blankRow [] initState rfl

/-- A quantity cell that is missing or parseable gives `pyIntOrZero` a
value. -/
theorem pyIntOrZero_isSome {v : Option String}
    (h : ∀ q, v = some q → (pyInt q).isSome = true) : ∃ n, pyIntOrZero v = some n := by
  cases hv : v
  · exact ⟨0, rfl⟩
  · rename_i q
    obtain ⟨n, hn⟩ := Option.isSome_iff_exists.mp (h q hv)
    exact ⟨n, by simp [pyIntOrZero, hn]⟩

/-- `recordPurchase` succeeds and appends exactly one purchase fact and one
inventory snapshot when the numeric cells are missing-or-parseable, the
cost parses, and the item has no inventory entry yet. -/
theorem recordPurchase_fires {item : Int} {row : Row} {cs : String} {s : ETLState}
    {vendors2 : List (String × VendorRec)} {vid : Nat}
    (hq : ∀ q, row.quantity = some q → (pyInt q).isSome = true)
    (hc : (pyFloat cs).isSome = true)
    (hinv : s.inventory.lookup item = none)
    (hoh : ∀ q, row.qty_on_hand = some q → (pyInt q).isSome = true) :
    ∃ s2, recordPurchase item row cs s vendors2 vid = .ok s2 ∧
      s2.purchases.length = s.purchases.length + 1 ∧
      s2.inventory.length = s.inventory.length + 1 ∧
      s2.products = s.products ∧ s2.sales = s.sales ∧ s2.customers = s.customers := by
  obtain ⟨n, hn⟩ := pyIntOrZero_isSome hq
  obtain ⟨cr, hcr⟩ := Option.isSome_iff_exists.mp hc
  obtain ⟨m, hm⟩ := pyIntOrZero_isSome hoh
  unfold recordPurchase
  simp only [hn, hcr, hinv, hm, Option.isSome_none, Bool.false_eq_true, if_false]
  exact ⟨_, rfl, by simp, by simp, rfl, rfl, rfl⟩

/-- `purchaseStep` succeeds and appends exactly one purchase fact and one
inventory snapshot when vendor and cost cells are present, the vendor
string parses, the numeric cells are missing-or-parseable, the cost parses,
and the item has no inventory entry yet. -/
theorem purchaseStep_fires {item : Int} {row : Row} {s : ETLState} {v cs : String}
    {vd : VendorFields}
    (hv : row.vendor = some v) (hcost : row.cost = some cs)
    (hvd : clean_vendor_data (some v) = some vd)
    (hq : ∀ q, row.quantity = some q → (pyInt q).isSome = true)
    (hc : (pyFloat cs).isSome = true)
    (hinv : s.inventory.lookup item = none)
    (hoh : ∀ q, row.qty_on_hand = some q → (pyInt q).isSome = true) :
    ∃ s2, purchaseStep item row s = .ok s2 ∧
      s2.purchases.length = s.purchases.length + 1 ∧
      s2.inventory.length = s.inventory.length + 1 ∧
      s2.products = s.products ∧ s2.sales = s.sales ∧ s2.customers = s.customers := by
  unfold purchaseStep
  simp only [hv, hcost, hvd]
  cases hlk : s.vendors.lookup vd.vendor_name <;> simp only [hlk] <;>
    exact recordPurchase_fires hq hc hinv hoh

/-- `saleStep` succeeds and appends exactly one sale fact when price and
sale-date cells are present, the price parses, the quantity cell is
missing-or-parseable, and a present non-blank customer cell parses. -/
theorem saleStep_fires {item : Int} {row : Row} {s : ETLState} {prs : String}
    (hp : row.price = some prs) (hd : (row.date_sold).isSome = true)
    (hq : ∀ q, row.quantity = some q → (pyInt q).isSome = true)
    (hpr : (pyFloat prs).isSome = true)
    (hcust : ∀ c, row.cust = some c → pyStrip c ≠ "" → (pyInt c).isSome = true) :
    ∃ s2, saleStep item row s = .ok s2 ∧
      s2.sales.length = s.sales.length + 1 ∧
      s2.products = s.products ∧ s2.purchases = s.purchases ∧
      s2.inventory = s.inventory := by
  obtain ⟨dstr, hdstr⟩ := Option.isSome_iff_exists.mp hd
  have hcr : ∃ cid custs, custResolve row.cust s.customers = some (cid, custs) := by
    cases hcu : row.cust with
    | none => exact ⟨none, s.customers, by simp [custResolve]⟩
    | some c =>
      by_cases hb : (pyStrip c == "") = true
      · exact ⟨none, s.customers, by simp [custResolve, hb]⟩
      · obtain ⟨i, hi⟩ := Option.isSome_iff_exists.mp (hcust c hcu (by simpa using hb))
        exact ⟨some i, if s.customers.contains i then s.customers else s.customers ++ [i],
          by simp [custResolve, hb, hi]⟩
  obtain ⟨cid, custs, hcrr⟩ := hcr
  obtain ⟨n, hn⟩ := pyIntOrZero_isSome hq
  obtain ⟨pr, hpr2⟩ := Option.isSome_iff_exists.mp hpr
  unfold saleStep
  simp only [hp, hdstr, hcrr, hn, hpr2]
  exact ⟨_, rfl, by simp, rfl, rfl, rfl⟩

/-- A first-time item number grows the product map by one. -/
theorem productStep_new {item : Int} {row : Row} {s : ETLState}
    (h : s.products.lookup item = none) :
    (productStep item row s).products.length = s.products.length + 1 := by
  unfold productStep
  rw [if_neg (by simp [h])]
  simp

/-- **C5**: a row carrying a first-time item number, a present vendor string
that parses together with a parseable cost, and a present price with a
present sale date (all other parses succeeding) is processed successfully
and yields exactly one new product, one purchase fact, one inventory
snapshot, and one sale fact — the three classification checks are
independent, not mutually exclusive. -/
theorem c5_classification_independence {row : Row} {s : ETLState} {istr : String}
    {item : Int} {v cs prs : String} {vd : VendorFields}
    (hitem : row.item_num = some istr) (hpi : pyInt istr = some item)
    (hnew : s.products.lookup item = none)
    (hv : row.vendor = some v) (hcost : row.cost = some cs)
    (hvd : clean_vendor_data (some v) = some vd)
    (hc : (pyFloat cs).isSome = true)
    (hinv : s.inventory.lookup item = none)
    (hprice : row.price = some prs) (hpr : (pyFloat prs).isSome = true)
    (hdate : (row.date_sold).isSome = true)
    (hq : ∀ q, row.quantity = some q → (pyInt q).isSome = true)
    (hoh : ∀ q, row.qty_on_hand = some q → (pyInt q).isSome = true)
    (hcust : ∀ c, row.cust = some c → pyStrip c ≠ "" → (pyInt c).isSome = true) :
    ∃ s2, process_row row s = .ok s2 ∧
      s2.products.length = s.products.length + 1 ∧
      s2.purchases.length = s.purchases.length + 1 ∧
      s2.inventory.length = s.inventory.length + 1 ∧
      s2.sales.length = s.sales.length + 1 := by
  have hprest := productStep_rest item row s
  have hinv1 : (productStep item row s).inventory.lookup item = none := by
    rw [hprest.2.2.2.2]; exact hinv
  obtain ⟨s2p, hps, hlpur, hlinv, hprod2, hsales2, hcust2⟩ :=
    purchaseStep_fires (s := productStep item row s) hv hcost hvd hq hc hinv1 hoh
  obtain ⟨s3, hss, hlsales, hprod3, hpur3, hinv3⟩ :=
    saleStep_fires (s := s2p) hprice hdate hq hpr hcust
  refine ⟨s3, ?_, ?_, ?_, ?_, ?_⟩
  · unfold process_row
    simp only [hitem, hpi, hps]
    exact hss
  · rw [hprod3, hprod2]
    exact productStep_new hnew
  · rw [hpur3, hlpur, hprest.1]
  · rw [hinv3, hlinv, hprest.2.2.2.2]
  · rw [hlsales, hsales2, hprest.2.1]

/-- Witness for `c5_classification_independence` at `c5row` on the empty
state. -/
theorem c5_classification_independence_witness :
    ∃ s2, process_row c5row initState = .ok s2 ∧
      s2.products.length = initState.products.length + 1 ∧
      s2.purchases.length = initState.purchases.length + 1 ∧
      s2.inventory.length = initState.inventory.length + 1 ∧
      s2.sales.length = initState.sales.length + 1 :=
  @c5_classification_independence c5row initState "11" 11 "Dairy Farm, 1 Rd" "3" "5" c5vd
    rfl (by decide) rfl rfl rfl (by decide) (by decide) rfl rfl (by decide) rfl
    (fun q hq => by injection hq with h; subst h; decide)
    (fun q hq => by injection hq with h; subst h; decide)
    (fun c hc hne => by injection hc with h; subst h; decide)

/-- A present but unparseable cost makes `recordPurchase` raise
(regardless of whether the quantity cell parses first). -/
theorem recordPurchase_badFloat {item : Int} {row : Row} {cs : String} {s : ETLState}
    {vendors2 : List (String × VendorRec)} {vid : Nat}
    (hc : pyFloat cs = none) :
    ∃ msg, recordPurchase item row cs s vendors2 vid = .error msg := by
  unfold recordPurchase
  cases hq : pyIntOrZero row.quantity <;> simp only [hq, hc] <;> exact ⟨_, rfl⟩

/-- A present but unparseable cost next to a parsing vendor string makes
`purchaseStep` raise. -/
theorem purchaseStep_badFloat {item : Int} {row : Row} {s : ETLState} {v cs : String}
    {vd : VendorFields}
    (hv : row.vendor = some v) (hcost : row.cost = some cs)
    (hvd : clean_vendor_data (some v) = some vd) (hc : pyFloat cs = none) :
    ∃ msg, purchaseStep item row s = .error msg := by
  unfold purchaseStep
  simp only [hv, hcost, hvd]
  cases hlk : s.vendors.lookup vd.vendor_name <;> simp only [hlk] <;>
    exact recordPurchase_badFloat hc

/-- **C6** (counterexample): a present but unparseable cost cell is not
recoverable — `float('abc')` raises, the run aborts, and nothing defaults
to zero — contradicting the claim that a bad cost is a per-row warning. -/
theorem c6_counterexample :
    (processRows [badCostRow] initState).map (fun s => s.products.length) =
      .error "could not convert string to float" ∧
    badCostRow.cost = some "abc" := by
  exact ⟨by rfl, rfl⟩

/-- **C6** (amended): an unparseable *date* is recoverable per row — the
fact's date field becomes null, the row is still processed (on `c6dateRow`
both dates are null and the missing quantity defaults to 0) — but a present
unparseable *cost* (and likewise quantity) raises an uncaught `ValueError`
that makes the run fatal; only a missing cell defaults to zero. -/
theorem c6_parse_failure_channels :
    ((processRows [c6dateRow] initState).map
      (fun s => (s.purchases.map (fun p => (p.purchase_date, p.quantity_ordered)),
                 s.sales.map (fun sf => sf.sale_date))) =
      .ok ([(none, 0)], [none])) ∧
    parse_date (some "11/18/2025") = some "2025-11-18" ∧
    parse_date (some "13/40/2025") = none ∧
    ∀ (row : Row) (s : ETLState) (istr : String) (item : Int) (v cs : String)
      (vd : VendorFields),
      row.item_num = some istr → pyInt istr = some item →
      row.vendor = some v → row.cost = some cs →
      clean_vendor_data (some v) = some vd → pyFloat cs = none →
      ∃ msg, process_row row s = .error msg := by
  refine ⟨by rfl, by decide, by decide, ?_⟩
  intro row s istr item v cs vd hitem hpi hv hcost hvd hc
  obtain ⟨msg, hmsg⟩ :=
    @purchaseStep_badFloat item row (productStep item row s) v cs vd hv hcost hvd hc
  refine ⟨msg, ?_⟩
  unfold process_row
  simp only [hitem, hpi, hmsg]

/-- Witness for `c6_parse_failure_channels` at `badCostRow` on the empty
state. -/
theorem c6_parse_failure_channels_witness :
    ∃ msg, process_row badCostRow initState = .error msg :=
  c6_parse_failure_channels.2.2.2 badCostRow initState "1" 1 "V" "abc"
    { vendor_name := "V", address := "", city := "", state := "", zip_code := "" }
    rfl (by decide) rfl rfl (by decide) (by decide)

/-- `purchaseStep` preserves the vendor-id range invariant, never shrinks
the vendor map, and any purchase fact it appends references the processed
item and an assigned vendor id. -/
theorem purchaseStep_WF {item : Int} {row : Row} {s s2 : ETLState}
    (hw : ∀ kv ∈ s.vendors, 1 ≤ (kv.2).vendor_id ∧ (kv.2).vendor_id ≤ s.vendors.length)
    (h : purchaseStep item row s = .ok s2) :
    (∀ kv ∈ s2.vendors, 1 ≤ (kv.2).vendor_id ∧ (kv.2).vendor_id ≤ s2.vendors.length) ∧
    s.vendors.length ≤ s2.vendors.length ∧
    ∀ pf ∈ s2.purchases, pf ∈ s.purchases ∨
      (pf.product_id = item ∧ 1 ≤ pf.vendor_id ∧ pf.vendor_id ≤ s2.vendors.length) := by
  unfold purchaseStep at h
  split at h
  · split at h
    · injection h with h1; subst h1
      exact ⟨hw, Nat.le_refl _, fun pf hpf => Or.inl hpf⟩
    · rename_i vd hvd
      split at h
      · rename_i vr hlk
        obtain ⟨-, -, -, -, hv, ⟨qty, cost, hpur⟩, -⟩ := recordPurchase_ok h
        have hb := hw _ (lookup_some_mem hlk)
        refine ⟨?_, ?_, ?_⟩
        · rw [hv]; exact hw
        · rw [hv]
        · intro pf hpf
          rw [hpur] at hpf
          rcases List.mem_append.mp hpf with hold | hnew2
          · exact Or.inl hold
          · rcases List.mem_cons.mp hnew2 with rfl | hnil
            · exact Or.inr ⟨rfl, hb.1, by rw [hv]; exact hb.2⟩
            · cases hnil
      · rename_i hlk
        obtain ⟨-, -, -, -, hv, ⟨qty, cost, hpur⟩, -⟩ := recordPurchase_ok h
        have hlen : s2.vendors.length = s.vendors.length + 1 := by rw [hv]; simp
        refine ⟨?_, ?_, ?_⟩
        · intro kv hkv
          rw [hv] at hkv
          rcases List.mem_append.mp hkv with hold | hnew2
          · obtain ⟨h1, h2⟩ := hw kv hold
            exact ⟨h1, by rw [hlen]; exact h2.trans (Nat.le_succ _)⟩
          · rcases List.mem_cons.mp hnew2 with rfl | hnil
            · exact ⟨Nat.succ_le_succ (Nat.zero_le _), by rw [hlen]⟩
            · cases hnil
        · rw [hlen]; exact Nat.le_succ _
        · intro pf hpf
          rw [hpur] at hpf
          rcases List.mem_append.mp hpf with hold | hnew2
          · exact Or.inl hold
          · rcases List.mem_cons.mp hnew2 with rfl | hnil
            · exact Or.inr ⟨rfl, Nat.succ_le_succ (Nat.zero_le _),
                by rw [hlen]; exact Nat.le_refl _⟩
            · cases hnil
  · injection h with h1; subst h1
    exact ⟨hw, Nat.le_refl _, fun pf hpf => Or.inl hpf⟩

/-- One successful `process_row` preserves the referential invariant. -/
theorem process_row_WF {row : Row} {s s2 : ETLState} (hs : StateWF s)
    (h : process_row row s = .ok s2) : StateWF s2 := by
  obtain ⟨hwv, hwp, hws⟩ := hs
  unfold process_row at h
  split at h
  · simp at h
  · split at h
    · simp at h
    · rename_i item hitem
      split at h
      · simp at h
      · rename_i s1 hps
        have hrest := productStep_rest item row s
        have hwv1 : ∀ kv ∈ (productStep item row s).vendors,
            1 ≤ (kv.2).vendor_id ∧
            (kv.2).vendor_id ≤ (productStep item row s).vendors.length := by
          rw [hrest.2.2.1]; exact hwv
        obtain ⟨hwv2, hlen2, hclass2⟩ := purchaseStep_WF hwv1 hps
        obtain ⟨hprod1, hsales1, hcust1, -, -, -, -⟩ := purchaseStep_ok hps
        obtain ⟨hprod3, hpur3, hvend3, -, -, ⟨ct, hct⟩, hsale3⟩ := saleStep_ok h
        refine ⟨?_, ?_, ?_⟩
        · rw [hvend3]; exact hwv2
        · intro pf hpf
          rw [hpur3] at hpf
          rcases hclass2 pf hpf with hold | ⟨hpid, hb1, hb2⟩
          · rw [hrest.1] at hold
            obtain ⟨hlk, hv1, hv2⟩ := hwp pf hold
            refine ⟨?_, hv1, ?_⟩
            · rw [hprod3, hprod1]
              exact productStep_lookup_mono item row s hlk
            · rw [hvend3]
              calc pf.vendor_id ≤ s.vendors.length := hv2
                _ = (productStep item row s).vendors.length := by rw [hrest.2.2.1]
                _ ≤ s1.vendors.length := hlen2
          · refine ⟨?_, hb1, ?_⟩
            · rw [hprod3, hprod1, hpid]
              exact productStep_lookup_self item row s
            · rw [hvend3]; exact hb2
        · intro sf hsf
          rcases hsale3 with hseq | ⟨sf2, hseq, hpid2, hcm⟩
          · rw [hseq, hsales1, hrest.2.1] at hsf
            obtain ⟨hlk, hcm0⟩ := hws sf hsf
            refine ⟨?_, ?_⟩
            · rw [hprod3, hprod1]
              exact productStep_lookup_mono item row s hlk
            · intro i hi
              rw [hct, hcust1, hrest.2.2.2.1]
              exact List.mem_append_left _ (hcm0 i hi)
          · rw [hseq, hsales1, hrest.2.1] at hsf
            rcases List.mem_append.mp hsf with hold | hnew2
            · obtain ⟨hlk, hcm0⟩ := hws sf hold
              refine ⟨?_, ?_⟩
              · rw [hprod3, hprod1]
                exact productStep_lookup_mono item row s hlk
              · intro i hi
                rw [hct, hcust1, hrest.2.2.2.1]
                exact List.mem_append_left _ (hcm0 i hi)
            · rcases List.mem_cons.mp hnew2 with rfl | hnil
              · refine ⟨?_, fun i hi => hcm i hi⟩
                rw [hprod3, hprod1, hpid2]
                exact productStep_lookup_self item row s
              · cases hnil

/-- The empty containers satisfy the referential invariant. -/
theorem initState_WF : StateWF initState := by
  refine ⟨?_, ?_, ?_⟩ <;> intro x hx <;> exact absurd hx (by simp [initState])

/-- The row loop preserves the referential invariant. -/
theorem processRows_WF : ∀ (rows : List Row) (s s2 : ETLState), StateWF s →
    processRows rows s = .ok s2 → StateWF s2 := by
  intro rows
  induction rows with
  | nil =>
    intro s s2 hs h
    unfold processRows at h
    injection h with h1
    subst h1
    exact hs
  | cons row rest ih =>
    intro s s2 hs h
    unfold processRows at h
    split at h
    · exact ih _ _ hs h
    · split at h
      · simp at h
      · rename_i s1 hpr
        exact ih _ _ (process_row_WF hs hpr) h

/-- **C9**: after successfully processing any row sequence from the empty
state, every purchase fact references an item-number key of the product map
and an assigned vendor id in `1..len(vendors)`, and every sale fact
references a product-map key and a null-or-registered customer id — the
in-memory state never holds a dangling fact reference. -/
theorem c9_no_dangling_refs {rows : List Row} {s : ETLState}
    (h : processRows rows initState = .ok s) :
    (∀ pf ∈ s.purchases, ((s.products.lookup pf.product_id).isSome = true) ∧
      1 ≤ pf.vendor_id ∧ pf.vendor_id ≤ s.vendors.length) ∧
    (∀ sf ∈ s.sales, ((s.products.lookup sf.product_id).isSome = true) ∧
      ∀ i, sf.customer_id = some i → i ∈ s.customers) := by
  obtain ⟨-, h2, h3⟩ := processRows_WF rows initState s initState_WF h
  exact ⟨h2, h3⟩

/-- Witness for `c9_no_dangling_refs` after processing `eggsRow`. -/
theorem c9_no_dangling_refs_witness :
    (∀ pf ∈ c9state.purchases, ((c9state.products.lookup pf.product_id).isSome = true) ∧
      1 ≤ pf.vendor_id ∧ pf.vendor_id ≤ c9state.vendors.length) ∧
    (∀ sf ∈ c9state.sales, ((c9state.products.lookup sf.product_id).isSome = true) ∧
      ∀ i, sf.customer_id = some i → i ∈ c9state.customers) :=
  @c9_no_dangling_refs [eggsRow] c9state (by rfl)
